import Mathlib

/-!
Verification development for the `deploy` tool (a Go CLI that deploys a single
service to a remote Linux host over ssh, with single-slot `.bak` backups,
Traefik label generation, quadlet unit rendering, and sqlite database sync).

The Go sources are embedded shallowly:

* pure functions (`generateTraefikLabels` in templates.go, the quadlet and
  maintenance template rendering, the volume rewriting of `generateQuadlet`)
  become Lean functions on the same data;
* the effectful flows (`doRun` in deploy.go, `rollback`, `doDBPull` and
  `doDBPush` in db.go) become functions from a `World` of oracles (the results
  the outside world returns for each command) to the list of issued effects
  (`Event`) plus the terminal `Outcome`; `logFatal`, which calls `os.Exit(1)`,
  is modelled by stopping with `Outcome.fatal`;
* Go's `map[string]string` (`RouterConfig.Headers`) is embedded as the list of
  key/value pairs in the order Go's `range` happens to iterate them.  Go leaves
  that order unspecified (it is randomized at runtime), so a single map value
  corresponds to every permutation of the list;
* a command string such as the rollback script is built exactly as the Go code
  builds it (`strings.Join(cmds, " && ")`); the remote POSIX shell runs an
  `&&` chain left to right until the first failure, which `execChain` models.
-/

/-! ### Small helpers for Go string primitives -/

/-- Go `strings.Join(elems, sep)`. -/
def goJoin (sep : String) : List String → String
  | [] => ""
  | [x] => x
  | x :: y :: xs => x ++ sep ++ goJoin sep (y :: xs)

/-- Splitting a character list at a separator character (the workhorse of
Go `strings.Split(s, ":")` for a one-character separator). -/
def splitCharList (c : Char) : List Char → List Char × List (List Char)
  | [] => ([], [])
  | x :: xs =>
    let r := splitCharList c xs
    if x = c then ([], r.1 :: r.2) else (x :: r.1, r.2)

/-- Go `strings.Split(s, sep)` for a one-character separator: always returns at
least one (possibly empty) part. -/
def goSplit (s : String) (c : Char) : List String :=
  let r := splitCharList c s.data
  String.mk r.1 :: r.2.map String.mk

/-- Go `strings.TrimRight(s, string(c))`. -/
def goTrimRight (s : String) (c : Char) : String :=
  String.mk ((s.data.reverse.dropWhile (fun x => x = c)).reverse)

/-- Go `strings.HasPrefix(s, p)`. -/
def goHasPre (s p : String) : Bool :=
  List.isPrefixOf p.data s.data

/-- Dropping the first `n` characters of a string
(Go `strings.TrimPrefix(s, p)` once `p` is known to be a prefix of length `n`). -/
def goDropChars (s : String) (n : Nat) : String :=
  String.mk (s.data.drop n)

theorem str_ext (a b : String) (h : a.data = b.data) : a = b := by
  cases a; cases b; exact congrArg String.mk h

theorem str_ne_of_take (a b : String) (n : Nat)
    (h : List.take n a.data ≠ List.take n b.data) : a ≠ b :=
  fun e => h (congrArg (fun t => List.take n (String.data t)) e)

/-! ### Data model (config.go) -/

/-- Go `RateLimitConfig` (config.go). -/
structure RateLimitConfig where
  average : Int := 0
  burst : Int := 0
deriving DecidableEq

/-- Go `RouterConfig` (config.go).  The Go field names `StripPrefix` and
`PathPrefix` are rendered `stripPfx` / `pathPfx` here; `Headers` is the map
contents in iteration order (see the file comment). -/
structure RouterConfig where
  enabled : Bool := false
  host : String := ""
  rule : String := ""
  internalPort : Int := 0
  entryPoints : List String := []
  certResolver : String := ""
  httpsRedirect : Bool := false
  pathPfx : String := ""
  stripPfx : Bool := false
  compress : Bool := false
  basicAuth : List String := []
  basicAuthFile : String := ""
  ipAllowList : List String := []
  rateLimit : Option RateLimitConfig := none
  headers : List (String × String) := []
deriving DecidableEq

/-- Go `Quadlet` (config.go). -/
structure Quadlet where
  serviceName : String := ""
  description : String := ""
  image : String := ""
  network : String := ""
  labels : List String := []
  router : RouterConfig := {}
  volumes : List String := []
  envVars : List String := []
  ports : List String := []
  autoRestart : Bool := false
  stopOnDeploy : Bool := false
  timezone : String := ""
  memory : String := ""
  cpu : String := ""
  readOnly : Bool := false
  healthCmd : String := ""
  healthURL : String := ""
  podmanArgs : List String := []
  exec : String := ""
  dockerfile : String := ""
  containerUID : Int := 0
  containerGID : Int := 0
  chownVolumes : List String := []
deriving DecidableEq

/-- Go `DatabaseConfig` (config.go). -/
structure DatabaseConfig where
  driver : String := ""
  source : String := ""
deriving DecidableEq

/-- Go `TraefikConfig` (config.go). -/
structure TraefikConfig where
  version : String := ""
  email : String := ""
  certResolver : String := ""
  networkName : String := ""
  dashboard : Bool := false
  dashboardAuth : String := ""
deriving DecidableEq

/-- Go `Environment` (config.go). -/
structure Environment where
  host : String := ""
  user : String := ""
  port : Int := 0
  sshKey : String := ""
  dir : String := ""
  syncEnvFile : String := ""
  quadlet : Quadlet := {}
  database : DatabaseConfig := {}
  traefik : TraefikConfig := {}
deriving DecidableEq

/-- Go `BuildConfig` (config.go). -/
structure BuildConfig where
  arch : String := ""
  ldflags : String := ""
  dir : String := ""
  cmd : String := ""
deriving DecidableEq

/-- Go `ArtifactsConfig` (config.go); the Go field name `Include` is rendered
`includeList` (`include` is reserved in Lean). -/
structure ArtifactsConfig where
  includeList : List String := []
  exclude : List String := []
deriving DecidableEq

/-- Go `Config` (config.go), restricted to the fields the deploy flow reads. -/
structure Config where
  appName : String := ""
  binaryName : String := ""
  build : BuildConfig := {}
  artifacts : ArtifactsConfig := {}
deriving DecidableEq

/-! ### Label compiler (templates.go, `generateTraefikLabels`) -/

/-- The middleware-chain names accumulated by `generateTraefikLabels`
(templates.go lines 313-351): one generated name per enabled capability,
appended in source order. -/
def middlewareNames (serviceName : String) (r : RouterConfig) : List String :=
  (if RouterConfig.stripPfx r ∧ RouterConfig.pathPfx r ≠ "" then
    [serviceName ++ "-strip"] else []) ++
  (if RouterConfig.basicAuth r ≠ [] then [serviceName ++ "-auth"] else []) ++
  (if RouterConfig.basicAuthFile r ≠ "" then [serviceName ++ "-authfile"] else []) ++
  (if RouterConfig.ipAllowList r ≠ [] then [serviceName ++ "-ip"] else []) ++
  (match RouterConfig.rateLimit r with
   | some rl => if 0 < RateLimitConfig.average rl then [serviceName ++ "-rate"] else []
   | none => []) ++
  (if RouterConfig.compress r then [serviceName ++ "-compress"] else []) ++
  (if RouterConfig.headers r ≠ [] then [serviceName ++ "-headers"] else [])

/-- The middleware configuration labels emitted by `generateTraefikLabels`
(templates.go lines 313-351), in source order.  The custom-header labels are
emitted by `for k, v := range r.Headers`, i.e. in map iteration order. -/
def middlewareLabels (serviceName : String) (r : RouterConfig) : List String :=
  (if RouterConfig.stripPfx r ∧ RouterConfig.pathPfx r ≠ "" then
    ["traefik.http.middlewares." ++ serviceName ++ "-strip.stripprefix.prefixes="
      ++ RouterConfig.pathPfx r]
   else []) ++
  (if RouterConfig.basicAuth r ≠ [] then
    ["traefik.http.middlewares." ++ serviceName ++ "-auth.basicauth.users="
      ++ String.intercalate "," (RouterConfig.basicAuth r)]
   else []) ++
  (if RouterConfig.basicAuthFile r ≠ "" then
    ["traefik.http.middlewares." ++ serviceName ++ "-authfile.basicauth.usersfile="
      ++ RouterConfig.basicAuthFile r]
   else []) ++
  (if RouterConfig.ipAllowList r ≠ [] then
    ["traefik.http.middlewares." ++ serviceName ++ "-ip.ipallowlist.sourcerange="
      ++ String.intercalate "," (RouterConfig.ipAllowList r)]
   else []) ++
  (match RouterConfig.rateLimit r with
   | some rl =>
     if 0 < RateLimitConfig.average rl then
       ["traefik.http.middlewares." ++ serviceName ++ "-rate.ratelimit.average="
         ++ toString (RateLimitConfig.average rl),
        "traefik.http.middlewares." ++ serviceName ++ "-rate.ratelimit.burst="
         ++ toString (RateLimitConfig.burst rl)]
     else []
   | none => []) ++
  (if RouterConfig.compress r then
    ["traefik.http.middlewares." ++ serviceName ++ "-compress.compress=true"] else []) ++
  (if RouterConfig.headers r ≠ [] then
    (RouterConfig.headers r).map (fun kv =>
      "traefik.http.middlewares." ++ serviceName ++ "-headers.headers.customrequestheaders."
        ++ kv.1 ++ "=" ++ kv.2)
   else [])

/-- Go `generateTraefikLabels` (templates.go lines 281-362), statement by
statement; `fmt.Sprintf` becomes string concatenation. -/
def generateTraefikLabels (serviceName : String) (r : RouterConfig)
    (defaultResolver : String) : List String :=
  if RouterConfig.host r = "" ∧ RouterConfig.rule r = "" then []
  else
    let rule := if RouterConfig.rule r = "" then "Host(`" ++ RouterConfig.host r ++ "`)"
                else RouterConfig.rule r
    let eps := if RouterConfig.entryPoints r = [] then ["websecure"]
               else RouterConfig.entryPoints r
    let resolver0 := if RouterConfig.certResolver r = "" then defaultResolver
                     else RouterConfig.certResolver r
    let resolver := if resolver0 = "" then "myresolver" else resolver0
    let port : Int := if RouterConfig.internalPort r = 0 then 8080
                      else RouterConfig.internalPort r
    ["traefik.enable=true",
     "traefik.http.routers." ++ serviceName ++ ".priority=100",
     "traefik.http.routers." ++ serviceName ++ ".rule=" ++ rule,
     "traefik.http.routers." ++ serviceName ++ ".entrypoints=" ++ String.intercalate "," eps,
     "traefik.http.routers." ++ serviceName ++ ".tls.certresolver=" ++ resolver]
    ++ middlewareLabels serviceName r
    ++ (if middlewareNames serviceName r = [] then []
        else ["traefik.http.routers." ++ serviceName ++ ".middlewares="
               ++ String.intercalate "," (middlewareNames serviceName r)])
    ++ ["traefik.http.services." ++ serviceName ++ ".loadbalancer.server.port=" ++ toString port]

/-! ### Unit rendering (templates.go `quadletTemplate`, deploy.go `generateQuadlet`) -/

/-- Rendering of `quadletTemplate` (templates.go lines 90-140) for a given
`Quadlet` and target directory: plain Go `text/template` substitution where
`{{- if }}`-guarded lines contribute a leading newline and `range` blocks one
line per element, in declaration order. -/
def quadletText (q : Quadlet) (targetDir : String) : String :=
  "[Unit]\nDescription="
  ++ (if Quadlet.description q ≠ "" then Quadlet.description q
      else Quadlet.serviceName q ++ " Service")
  ++ "\nRequires=traefik.service\nAfter=network-online.target traefik.service\nWants=network-online.target\n\n[Container]\nImage="
  ++ Quadlet.image q
  ++ (if Quadlet.exec q ≠ "" then "\nExec=" ++ Quadlet.exec q else "")
  ++ (if Quadlet.network q ≠ "" then "\nNetwork=" ++ Quadlet.network q else "")
  ++ (if Quadlet.timezone q ≠ "" then "\nTimezone=" ++ Quadlet.timezone q else "")
  ++ (if Quadlet.memory q ≠ "" then "\nMemory=" ++ Quadlet.memory q else "")
  ++ (if Quadlet.cpu q ≠ "" then "\nCPUQuota=" ++ Quadlet.cpu q else "")
  ++ (if Quadlet.readOnly q then "\nReadOnly=true" else "")
  ++ (if Quadlet.healthCmd q ≠ "" then
        "\nHealthCmd=" ++ Quadlet.healthCmd q ++ "\nHealthInterval=60s\nHealthRetries=3"
      else "")
  ++ String.join ((Quadlet.ports q).map (fun p => "\nPublishPort=" ++ p))
  ++ String.join ((Quadlet.volumes q).map (fun v => "\nVolume=" ++ v))
  ++ String.join ((Quadlet.envVars q).map (fun e => "\nEnvironment=" ++ e))
  ++ String.join ((Quadlet.podmanArgs q).map (fun a => "\nPodmanArgs=" ++ a))
  ++ "\nEnvironmentFile=" ++ targetDir ++ "/.env"
  ++ String.join ((Quadlet.labels q).map (fun l => "\nLabel=\"" ++ l ++ "\""))
  ++ "\n\n[Install]\nWantedBy=default.target\n"

/-- The relative-to-absolute volume rewrite of `generateQuadlet`
(deploy.go lines 200-211): a `./`-relative first component is resolved against
the remote working directory. -/
def rewriteVolume (dir vol : String) : String :=
  match goSplit vol ':' with
  | [] => vol
  | p :: rest =>
    if goHasPre p "./" then
      String.intercalate ":" ((goTrimRight dir '/' ++ "/" ++ goDropChars p 2) :: rest)
    else vol

/-- Steps 2 of `doRun` (deploy.go lines 76-79) plus `generateQuadlet`
(deploy.go lines 199-223): compile the labels from the router description and
render the unit text that is written to `build/<service>.container`. -/
def compiledUnit (env : Environment) : List String × String :=
  let labels := generateTraefikLabels (Quadlet.serviceName (Environment.quadlet env))
    (Quadlet.router (Environment.quadlet env))
    (TraefikConfig.certResolver (Environment.traefik env))
  let q := { Environment.quadlet env with
              labels := labels,
              volumes := (Quadlet.volumes (Environment.quadlet env)).map
                (rewriteVolume (Environment.dir env)) }
  (labels, quadletText q (Environment.dir env))

/-- Replacing the router's custom-header iteration order in an environment
(the same Go map value, observed in a different `range` order). -/
def withHeaderOrder (env : Environment) (h : List (String × String)) : Environment :=
  { env with quadlet := { Environment.quadlet env with
      router := { Quadlet.router (Environment.quadlet env) with headers := h } } }

/-! ### Maintenance page unit (templates.go `maintenanceContainerTmpl`) -/

/-- Go `MaintenanceTemplateData` (templates.go lines 8-14). -/
structure MaintenanceTemplateData where
  serviceName : String := ""
  rule : String := ""
  network : String := ""
  targetDir : String := ""
  resolver : String := ""
deriving DecidableEq

/-- Rendering of `maintenanceContainerTmpl` (templates.go lines 143-172):
plain `{{ .Field }}` substitution with no conditionals.  The fallback router
carries the literal label `priority=1`. -/
def maintenanceContainerRender (d : MaintenanceTemplateData) : String :=
  "[Unit]\nDescription=" ++ MaintenanceTemplateData.serviceName d
  ++ " Maintenance Page\nRequires=traefik.service\nAfter=network-online.target traefik.service\n\n[Container]\nImage=docker.io/library/nginx:alpine\nNetwork="
  ++ MaintenanceTemplateData.network d
  ++ "\nVolume=" ++ MaintenanceTemplateData.targetDir d
  ++ "/maintenance/index.html:/usr/share/nginx/html/index.html:ro,Z\n\n# --- Traefik Labels ---\nLabel=\"traefik.enable=true\"\n\n# 1. Router & Priority\nLabel=\"traefik.http.routers."
  ++ MaintenanceTemplateData.serviceName d
  ++ "-maint.rule=" ++ MaintenanceTemplateData.rule d
  ++ "\"\nLabel=\"traefik.http.routers." ++ MaintenanceTemplateData.serviceName d
  ++ ("-maint.priority=" ++ "1")
  ++ ("\"\nLabel=\"traefik.http.routers." ++ MaintenanceTemplateData.serviceName d
  ++ "-maint.entrypoints=websecure\"\nLabel=\"traefik.http.routers."
  ++ MaintenanceTemplateData.serviceName d
  ++ "-maint.tls.certresolver=" ++ MaintenanceTemplateData.resolver d
  ++ "\"\n\n# 2. Middleware: Rewrite ALL paths to root (/) so Nginx serves index.html\nLabel=\"traefik.http.middlewares."
  ++ MaintenanceTemplateData.serviceName d
  ++ "-maint-strip.replacepathregex.regex=^/.*\"\nLabel=\"traefik.http.middlewares."
  ++ MaintenanceTemplateData.serviceName d
  ++ "-maint-strip.replacepathregex.replacement=/\"\nLabel=\"traefik.http.routers."
  ++ MaintenanceTemplateData.serviceName d
  ++ "-maint.middlewares=" ++ MaintenanceTemplateData.serviceName d
  ++ "-maint-strip\"\n\n# 3. Service\nLabel=\"traefik.http.services."
  ++ MaintenanceTemplateData.serviceName d
  ++ "-maint.loadbalancer.server.port=80\"\n\n[Install]\nWantedBy=default.target\n")

/-! ### Claim C6 -/

/-- C6: for every RouteDescriptor with neither a rule string nor a hostname
configured, the label compiler returns an empty label list (templates.go
lines 282-285). -/
theorem C6_no_route_no_labels (s : String) (r : RouterConfig) (d : String)
    (hh : RouterConfig.host r = "") (hr : RouterConfig.rule r = "") :
    generateTraefikLabels s r d = [] := by
  unfold generateTraefikLabels
  rw [if_pos ⟨hh, hr⟩]

theorem C6_no_route_no_labels_witness :
    RouterConfig.host ({ compress := true } : RouterConfig) = ""
    ∧ RouterConfig.rule ({ compress := true } : RouterConfig) = ""
    ∧ generateTraefikLabels "app" { compress := true } "" = [] :=
  ⟨rfl, rfl, C6_no_route_no_labels "app" { compress := true } "" rfl rfl⟩

/-! ### Claim C2 -/

/-- A router whose custom-header map `{X-A: 1, X-B: 2}` is observed in one
iteration order. -/
def routerHdrA : RouterConfig :=
  { host := "app.example.com", headers := [("X-A", "1"), ("X-B", "2")] }

/-- The same router value with the same header map observed in the other
iteration order (Go randomizes map iteration, so both runs are possible). -/
def routerHdrB : RouterConfig :=
  { host := "app.example.com", headers := [("X-B", "2"), ("X-A", "1")] }

/-- C2 counterexample: compiling the same descriptor twice is not
byte-identical once the custom-headers map has two entries, because
`for k, v := range r.Headers` (templates.go line 347) iterates a Go map in
unspecified, randomized order: the two possible orders of the same map give
different label lists. -/
theorem C2_cex_header_order_nondeterminism :
    List.Perm (RouterConfig.headers routerHdrA) (RouterConfig.headers routerHdrB)
    ∧ generateTraefikLabels "app" routerHdrA "" ≠ generateTraefikLabels "app" routerHdrB "" := by
  constructor
  · decide
  · decide

/-- C2 (amended): compiling twice from an unmodified descriptor yields a
byte-identical label list and unit text as long as the custom-headers map has
at most one entry; with two or more entries the output is deterministic only
up to the order of the custom-header labels. -/
theorem C2_compile_deterministic_single_header (env : Environment)
    (h₁ h₂ : List (String × String)) (hperm : List.Perm h₁ h₂)
    (hlen : h₁.length ≤ 1) :
    compiledUnit (withHeaderOrder env h₁) = compiledUnit (withHeaderOrder env h₂) := by
  have heq : h₁ = h₂ := by
    match h₁, hperm, hlen with
    | [], hp, _ => exact (List.Perm.eq_nil hp.symm).symm
    | [a], hp, _ => exact (List.perm_singleton.mp hp.symm).symm
    | x :: y :: t, _, hl => exact absurd hl (by simp)
  rw [heq]

/-- An environment with a routed service, used to instantiate the compiler
theorems. -/
def envApp : Environment :=
  { host := "vps.example.com", user := "deploy", port := 22, dir := "/srv/app",
    quadlet := { serviceName := "app", image := "localhost/app:latest",
                 router := { host := "app.example.com", internalPort := 8080 } },
    database := { driver := "sqlite", source := "data/app.db" },
    traefik := { certResolver := "myresolver" } }

theorem C2_compile_deterministic_single_header_witness :
    List.Perm [("X-A", "1")] [("X-A", "1")] ∧ ([("X-A", "1")] : List (String × String)).length ≤ 1
    ∧ compiledUnit (withHeaderOrder envApp [("X-A", "1")])
        = compiledUnit (withHeaderOrder envApp [("X-A", "1")]) :=
  ⟨List.Perm.refl _, by decide,
    C2_compile_deterministic_single_header envApp _ _ (List.Perm.refl _) (by decide)⟩

/-! ### Claim C9 -/

/-- C9: for every exposed RouteDescriptor the compiled labels carry the primary
router priority 100 (templates.go line 290), the maintenance fallback unit
carries priority 1 (templates.go line 158), and 1 < 100, so the primary
service wins when both routers are registered. -/
theorem C9_priority_beats_maintenance (s d : String) (r : RouterConfig)
    (hexp : ¬(RouterConfig.host r = "" ∧ RouterConfig.rule r = ""))
    (md : MaintenanceTemplateData) :
    ("traefik.http.routers." ++ s ++ ".priority=100") ∈ generateTraefikLabels s r d
    ∧ "traefik.http.routers." ++ s ++ ".priority=100"
        = "traefik.http.routers." ++ s ++ ".priority=" ++ toString (100 : Nat)
    ∧ (∃ pre post, maintenanceContainerRender md
        = pre ++ ("-maint.priority=" ++ toString (1 : Nat)) ++ post)
    ∧ (1 : Nat) < 100 := by
  refine ⟨?_, ?_, ⟨_, _, rfl⟩, by decide⟩
  · unfold generateTraefikLabels
    rw [if_neg hexp]
    simp
  · apply str_ext
    simp only [String.data_append, List.append_assoc]
    rfl

theorem C9_priority_beats_maintenance_witness :
    ¬(RouterConfig.host { host := "app.example.com" } = ""
      ∧ RouterConfig.rule ({ host := "app.example.com" } : RouterConfig) = "")
    ∧ ("traefik.http.routers.app.priority=100")
        ∈ generateTraefikLabels "app" { host := "app.example.com" } "" :=
  ⟨by decide,
    (C9_priority_beats_maintenance "app" "" { host := "app.example.com" }
      (by decide) {}).1⟩

/-! ### Claim C7 -/

/-- The middleware-chain order the spec demands (§4.3 rule 5: path-prefix
stripping first, static basic-auth, file-based basic-auth, IP allow-listing,
rate limiting, response compression, custom request headers last), filtered to
the enabled capabilities.  Written from the spec's words, to be compared with
`middlewareNames`, which is translated from the code. -/
def specMiddlewareChain (serviceName : String) (r : RouterConfig) : List String :=
  (if RouterConfig.stripPfx r ∧ RouterConfig.pathPfx r ≠ "" then
    [serviceName ++ "-strip"] else []) ++
  (if RouterConfig.basicAuth r ≠ [] then [serviceName ++ "-auth"] else []) ++
  (if RouterConfig.basicAuthFile r ≠ "" then [serviceName ++ "-authfile"] else []) ++
  (if RouterConfig.ipAllowList r ≠ [] then [serviceName ++ "-ip"] else []) ++
  (match RouterConfig.rateLimit r with
   | some rl => if 0 < RateLimitConfig.average rl then [serviceName ++ "-rate"] else []
   | none => []) ++
  (if RouterConfig.compress r then [serviceName ++ "-compress"] else []) ++
  (if RouterConfig.headers r ≠ [] then [serviceName ++ "-headers"] else [])

theorem middlewareLabels_eq_nil (s : String) (r : RouterConfig)
    (h : middlewareNames s r = []) : middlewareLabels s r = [] := by
  unfold middlewareNames at h
  simp only [List.append_eq_nil] at h
  obtain ⟨⟨⟨⟨⟨⟨h1, h2⟩, h3⟩, h4⟩, h5⟩, h6⟩, h7⟩ := h
  have c1 : ¬(RouterConfig.stripPfx r ∧ RouterConfig.pathPfx r ≠ "") := by
    intro hc; rw [if_pos hc] at h1; simp at h1
  have c2 : ¬(RouterConfig.basicAuth r ≠ []) := by
    intro hc; rw [if_pos hc] at h2; simp at h2
  have c3 : ¬(RouterConfig.basicAuthFile r ≠ "") := by
    intro hc; rw [if_pos hc] at h3; simp at h3
  have c4 : ¬(RouterConfig.ipAllowList r ≠ []) := by
    intro hc; rw [if_pos hc] at h4; simp at h4
  have c5 : ∀ rl, RouterConfig.rateLimit r = some rl →
      ¬(0 < RateLimitConfig.average rl) := by
    intro rl hrl hav
    simp only [hrl] at h5
    rw [if_pos hav] at h5
    simp at h5
  have c6 : ¬(RouterConfig.compress r = true) := by
    intro hc; rw [if_pos hc] at h6; simp at h6
  have c7 : ¬(RouterConfig.headers r ≠ []) := by
    intro hc; rw [if_pos hc] at h7; simp at h7
  unfold middlewareLabels
  rw [if_neg c1, if_neg c2, if_neg c3, if_neg c4, if_neg c6, if_neg c7]
  cases hrl : RouterConfig.rateLimit r with
  | none => simp
  | some rl => simp [if_neg (c5 rl hrl)]

/-- C7: for every exposed RouteDescriptor, the middleware chain accumulated by
the compiler equals the spec's fixed order (strip, basic-auth, auth-file, IP
allow-list, rate-limit, compression, custom headers; each present only when
enabled), and the chain label is part of the compiled labels if and only if at
least one middleware was configured. -/
theorem C7_middleware_chain_order (s : String) (r : RouterConfig) (d : String)
    (hexp : ¬(RouterConfig.host r = "" ∧ RouterConfig.rule r = "")) :
    middlewareNames s r = specMiddlewareChain s r
    ∧ (("traefik.http.routers." ++ s ++ ".middlewares="
         ++ String.intercalate "," (middlewareNames s r)) ∈ generateTraefikLabels s r d
       ↔ middlewareNames s r ≠ []) := by
  refine ⟨rfl, ?_, ?_⟩
  · intro hmem
    by_cases hmw : middlewareNames s r = []
    · exfalso
      unfold generateTraefikLabels at hmem
      rw [if_neg hexp] at hmem
      rw [middlewareLabels_eq_nil s r hmw, if_pos hmw] at hmem
      simp only [List.append_nil, List.nil_append, List.mem_append, List.mem_cons,
        List.mem_singleton, List.not_mem_nil, or_false, false_or] at hmem
      rcases hmem with (h|h|h|h|h)|h
      · exact absurd h (str_ne_of_take _ _ 9 (by
          simp only [String.data_append, List.append_assoc]
          rw [List.take_append_of_le_length (by decide)]
          decide))
      · have e2 := congrArg String.data h
        simp only [String.data_append, List.append_assoc] at e2
        have e4 := congrArg (List.take 2) (List.append_cancel_left (List.append_cancel_left e2))
        rw [List.take_append_of_le_length (by decide)] at e4
        exact absurd e4 (by decide)
      · have e2 := congrArg String.data h
        simp only [String.data_append, List.append_assoc] at e2
        have e4 := congrArg (List.take 2) (List.append_cancel_left (List.append_cancel_left e2))
        rw [List.take_append_of_le_length (by decide),
            List.take_append_of_le_length (by decide)] at e4
        exact absurd e4 (by decide)
      · have e2 := congrArg String.data h
        simp only [String.data_append, List.append_assoc] at e2
        have e4 := congrArg (List.take 2) (List.append_cancel_left (List.append_cancel_left e2))
        rw [List.take_append_of_le_length (by decide),
            List.take_append_of_le_length (by decide)] at e4
        exact absurd e4 (by decide)
      · have e2 := congrArg String.data h
        simp only [String.data_append, List.append_assoc] at e2
        have e4 := congrArg (List.take 2) (List.append_cancel_left (List.append_cancel_left e2))
        rw [List.take_append_of_le_length (by decide),
            List.take_append_of_le_length (by decide)] at e4
        exact absurd e4 (by decide)
      · exact absurd h (str_ne_of_take _ _ 14 (by
          simp only [String.data_append, List.append_assoc]
          rw [List.take_append_of_le_length (by decide),
              List.take_append_of_le_length (by decide)]
          decide))
    · exact hmw
  · intro hne
    unfold generateTraefikLabels
    rw [if_neg hexp]
    rw [if_neg hne]
    simp

/-- The scenario route of spec §8: host plus strip-prefix middleware. -/
def routerStrip : RouterConfig :=
  { host := "app.example.com", internalPort := 8080,
    stripPfx := true, pathPfx := "/api" }

theorem C7_middleware_chain_order_witness :
    ¬(RouterConfig.host routerStrip = "" ∧ RouterConfig.rule routerStrip = "")
    ∧ (middlewareNames "app" routerStrip = specMiddlewareChain "app" routerStrip
       ∧ (("traefik.http.routers." ++ "app" ++ ".middlewares="
            ++ String.intercalate "," (middlewareNames "app" routerStrip))
            ∈ generateTraefikLabels "app" routerStrip ""
          ↔ middlewareNames "app" routerStrip ≠ [])) :=
  ⟨by decide, C7_middleware_chain_order "app" routerStrip "" (by decide)⟩

/-! ### Effect model (utils.go runners, deploy.go `doRun` and `rollback`) -/

/-- An observable effect of a run: a remote command executed over ssh
(buffered or streamed), an rsync transfer, a local command execution, or a
durable local filesystem change. -/
inductive Event where
  | ssh (cmd : String)
  | sshStream (cmd : String)
  | rsync (sources : List String) (dest : String) (extra : List String)
  | localExec (cmd : String)
  | fileWrite (path : String)
  | fileRemove (path : String)
deriving DecidableEq

/-- Oracles for everything outside the program: exit results of remote
commands and local tools, answers to confirmation prompts, and the remote
file set consulted by the rollback script's `[ -f ... ]` test. -/
structure World where
  localRsyncOk : Bool := true
  buildOk : Bool := true
  sshOk : String → Bool := fun _ => true
  rsyncOk : List String → String → Bool := fun _ _ => true
  confirmAnswer : String → Bool := fun _ => true
  localCopyOk : Bool := true
  localCreateOk : Bool := true
  pullOk : Bool := true
  remoteFiles : List String := []
  cdOk : Bool := true
  rbBuildOk : Bool := true
  rbRestartOk : Bool := true

/-- The distinct `logFatal` exits of the embedded flows. -/
inductive FatalKind where
  | localToolMissing
  | remoteCheckFailed
  | buildFailed
  | rsyncFailed
  | deployFailedRolledBack
  | deployUnhealthy
  | rollbackFailed
  | dbNotSqlite
  | localBackupFailed
  | localCreateFailed
  | pullFailed
  | pushPrecondition (msg : String)
  | pushRemoteBackupFailed
  | pushUploadFailed
deriving DecidableEq

/-- How a flow ends: normal return, a user-declined early return, or
`logFatal` (which exits the process with status 1). -/
inductive Outcome where
  | ok
  | aborted
  | fatal (k : FatalKind)
deriving DecidableEq

/-- The process exit status implied by an outcome (`logFatal` calls
`os.Exit(1)`; every other path returns normally). -/
def Outcome.exitCode : Outcome → Nat
  | .ok => 0
  | .aborted => 0
  | .fatal _ => 1

/-- Go `runSSH` (utils.go lines 130-140): in dry-run mode the command is only
logged and reported successful; otherwise it is executed and its exit result
returned. -/
def runSSH (dry : Bool) (w : World) (cmd : String) : List Event × Bool :=
  if dry then ([], true) else ([Event.ssh cmd], World.sshOk w cmd)

/-- Go `runSSHStream` (utils.go lines 142-153), same dry-run gate. -/
def runSSHStream (dry : Bool) (w : World) (cmd : String) : List Event × Bool :=
  if dry then ([], true) else ([Event.sshStream cmd], World.sshOk w cmd)

/-- Go `runRsyncSafe` (utils.go lines 161-187): runs through `runCommandRaw`,
which in dry-run mode only prints the command and reports success. -/
def runRsyncSafe (dry : Bool) (w : World) (sources : List String) (dest : String)
    (extra : List String) : List Event × Bool :=
  if dry then ([], true) else ([Event.rsync sources dest extra], World.rsyncOk w sources dest)

/-- Go `confirm` (utils.go lines 37-45): dry-run auto-confirms. -/
def confirmRun (dry : Bool) (w : World) (prompt : String) : Bool :=
  if dry then true else World.confirmAnswer w prompt

/-! ### Command strings built by `doRun` (deploy.go) -/

/-- The remote pre-flight check (deploy.go line 23). -/
def preflightCmd : String := "command -v rsync >/dev/null && command -v podman >/dev/null"

/-- The remote directory preparation (deploy.go line 83). -/
def mkdirCmd (env : Environment) : String :=
  "mkdir -p " ++ Environment.dir env ++ "/data " ++ Environment.dir env
    ++ "/migrations ~/.config/containers/systemd"

/-- The remote binary path (deploy.go line 85). -/
def binPath (cfg : Config) (env : Environment) : String :=
  Environment.dir env ++ "/" ++ Config.binaryName cfg

/-- The Backing-Up command (deploy.go line 86): copy the existing remote
binary to its single `.bak` slot ( `|| true` masks a failed `cp`). -/
def backupCmd (bp : String) : String :=
  "[ -f " ++ bp ++ " ] && cp " ++ bp ++ " " ++ bp ++ ".bak || true"

/-- The local build command (deploy.go lines 56-70); the rendered linker
flags are omitted from the string since no claim depends on them. -/
def buildCmdOf (cfg : Config) : String :=
  if BuildConfig.cmd (Config.build cfg) ≠ "" then BuildConfig.cmd (Config.build cfg)
  else "go build -o build/" ++ Config.binaryName cfg ++ " "
    ++ (if BuildConfig.dir (Config.build cfg) ≠ "" then BuildConfig.dir (Config.build cfg) else ".")

/-- The artifact set synced to the remote working directory
(deploy.go lines 88-94). -/
def artifactsOf (cfg : Config) : List String :=
  ("build/" ++ Config.binaryName cfg)
    :: (if ArtifactsConfig.includeList (Config.artifacts cfg) ≠ []
        then ArtifactsConfig.includeList (Config.artifacts cfg)
        else ["Dockerfile.vps", "migrations/", "files/"])

/-- The rsync destination for the artifact sync (deploy.go line 96). -/
def rsyncMainDest (env : Environment) : String :=
  Environment.user env ++ "@" ++ Environment.host env ++ ":" ++ Environment.dir env ++ "/"

/-- The rsync destination for the `.env` file (deploy.go line 99). -/
def rsyncEnvDest (env : Environment) : String :=
  Environment.user env ++ "@" ++ Environment.host env ++ ":" ++ Environment.dir env ++ "/.env"

/-- The rsync destination for the quadlet unit (deploy.go line 101). -/
def rsyncQuadletDest (env : Environment) : String :=
  Environment.user env ++ "@" ++ Environment.host env ++ ":~/.config/containers/systemd/"

/-- The generated unit's local path (deploy.go lines 79, 218). -/
def containerPathOf (env : Environment) : String :=
  "build/" ++ Quadlet.serviceName (Environment.quadlet env) ++ ".container"

/-- The volume-ownership remap command (deploy.go lines 105-117). -/
def permCmd (env : Environment) : String :=
  if 0 < Quadlet.containerUID (Environment.quadlet env)
      ∧ Quadlet.chownVolumes (Environment.quadlet env) ≠ [] then
    let paths := (Quadlet.chownVolumes (Environment.quadlet env)).map (fun p =>
      if goHasPre p "./" then
        goTrimRight (Environment.dir env) '/' ++ "/" ++ goDropChars p 2
      else p)
    if paths ≠ [] then
      "podman unshare chown -R " ++ toString (Quadlet.containerUID (Environment.quadlet env))
        ++ ":" ++ toString (Quadlet.containerGID (Environment.quadlet env))
        ++ " " ++ String.intercalate " " paths
    else "true"
  else "true"

/-- The Dockerfile default (deploy.go lines 119-122). -/
def dockerfileOf (env : Environment) : String :=
  if Quadlet.dockerfile (Environment.quadlet env) = "" then "Dockerfile.vps"
  else Quadlet.dockerfile (Environment.quadlet env)

/-- The activation script (deploy.go lines 124-134), one `&&`-joined remote
command. -/
def activationScript (env : Environment) : String :=
  goJoin " && " [
    "cd " ++ Environment.dir env,
    "podman build -f " ++ dockerfileOf env ++ " -t "
      ++ Quadlet.image (Environment.quadlet env) ++ " .",
    permCmd env,
    "systemctl --user daemon-reload",
    "mkdir -p ~/.config/systemd/user/default.target.wants",
    "ln -sf /run/user/$(id -u)/systemd/generator/"
      ++ Quadlet.serviceName (Environment.quadlet env)
      ++ ".service ~/.config/systemd/user/default.target.wants/"
      ++ Quadlet.serviceName (Environment.quadlet env) ++ ".service",
    "systemctl --user daemon-reload",
    "systemctl --user restart " ++ Quadlet.serviceName (Environment.quadlet env) ++ ".service",
    "sleep 2 && systemctl --user is-active "
      ++ Quadlet.serviceName (Environment.quadlet env) ++ ".service"]

/-- The application health-check script (deploy.go lines 145-155). -/
def healthScript (url : String) : String :=
  "\n\t\t\t\tfor i in \x7b1..15\x7d; do\n\t\t\t\t\tif curl -s -f \"" ++ url
    ++ "\" > /dev/null; then\n\t\t\t\t\t\techo \"OK\"\n\t\t\t\t\t\texit 0\n\t\t\t\t\tfi\n\t\t\t\t\tsleep 2\n\t\t\t\tdone\n\t\t\t\techo \"Health check timed out\"\n\t\t\t\texit 1\n\t\t\t"

/-- The diagnostic log capture of `rollback` (deploy.go line 169). -/
def journalctlCmd (serviceName : String) : String :=
  "journalctl --user -u " ++ serviceName ++ ".service -n 50 --no-pager"

/-! ### The rollback command chain (deploy.go `rollback`, lines 167-181) -/

/-- The atomic parts of the rollback script, in source order. -/
inductive RbCmd where
  | cd (dir : String)
  | restoreBak (path : String)
  | build (dockerfile image : String)
  | restart (service : String)
deriving DecidableEq

/-- The exact command text of each rollback part (deploy.go lines 172-177). -/
def RbCmd.render : RbCmd → String
  | .cd d => "cd " ++ d
  | .restoreBak p => "[ -f " ++ p ++ ".bak ] && mv " ++ p ++ ".bak " ++ p
  | .build f i => "podman build -f " ++ f ++ " -t " ++ i ++ " ."
  | .restart s => "systemctl --user restart " ++ s ++ ".service"

/-- The rollback parts: enter the directory, restore the `.bak` binary,
rebuild the image, restart the unit. -/
def rbCmds (env : Environment) (bp df : String) : List RbCmd :=
  [RbCmd.cd (Environment.dir env), RbCmd.restoreBak bp,
   RbCmd.build df (Quadlet.image (Environment.quadlet env)),
   RbCmd.restart (Quadlet.serviceName (Environment.quadlet env))]

/-- The one remote command string `rollback` sends (deploy.go lines 172-177). -/
def rollbackScript (env : Environment) (bp df : String) : String :=
  goJoin " && " ((rbCmds env bp df).map RbCmd.render)

/-- Whether one rollback part succeeds: the `[ -f path.bak ]` test consults
the remote file set; the other parts are world oracles. -/
def RbCmd.succeeds (w : World) : RbCmd → Bool
  | .cd _ => World.cdOk w
  | .restoreBak p => (World.remoteFiles w).contains (p ++ ".bak")
  | .build _ _ => World.rbBuildOk w
  | .restart _ => World.rbRestartOk w

/-- POSIX semantics of the `&&`-joined script: parts run left to right; the
first failing part stops the chain and fails the whole command. -/
def execChain (w : World) : List RbCmd → List Event × Bool
  | [] => ([], true)
  | c :: cs =>
    if RbCmd.succeeds w c then
      let r := execChain w cs
      (Event.ssh (RbCmd.render c) :: r.1, r.2)
    else ([Event.ssh (RbCmd.render c)], false)

/-- Go `rollback` (deploy.go lines 167-181): stream the last 50 journal lines
(result ignored), then send the `&&`-joined restore script; returns whether
that script succeeded (on failure the caller exits with the distinct
CRITICAL rollback-failed error). -/
def rollbackRun (dry : Bool) (w : World) (env : Environment) (bp df : String) :
    List Event × Bool :=
  let j := (runSSHStream dry w (journalctlCmd (Quadlet.serviceName (Environment.quadlet env)))).1
  if dry then (j, true)
  else
    let r := execChain w (rbCmds env bp df)
    (j ++ r.1, r.2)

/-! ### `doRun` (deploy.go lines 14-165) -/

/-- Go `doRun` (deploy.go): pre-flight checks, local build, configuration
generation, sync (with the ignored-result backup step), activation with
rollback on failure, and the optional application health check with rollback
on failure.  Returns the issued effects and the terminal outcome. -/
def doRun (dry : Bool) (w : World) (cfg : Config) (env : Environment) :
    List Event × Outcome :=
  if !World.localRsyncOk w then ([], Outcome.fatal FatalKind.localToolMissing) else
  let p := runSSH dry w preflightCmd
  if !p.2 then (p.1, Outcome.fatal FatalKind.remoteCheckFailed) else
  let e0 := p.1 ++ (if dry then [] else [Event.fileWrite "build"])
  let b : List Event × Bool :=
    if dry then ([], true) else ([Event.localExec (buildCmdOf cfg)], World.buildOk w)
  if !b.2 then (e0 ++ b.1, Outcome.fatal FatalKind.buildFailed) else
  let e1 := e0 ++ b.1
  let e2 := e1 ++ (if dry then [] else [Event.fileWrite (containerPathOf env)])
  let e3 := e2 ++ (runSSH dry w (mkdirCmd env)).1
  let bp := binPath cfg env
  let e4 := e3 ++ (runSSH dry w (backupCmd bp)).1
  let r1 := runRsyncSafe dry w (artifactsOf cfg) (rsyncMainDest env) ["--delete"]
  if !r1.2 then (e4 ++ r1.1, Outcome.fatal FatalKind.rsyncFailed) else
  let e5 := e4 ++ r1.1
  let r2 : List Event × Bool :=
    if Environment.syncEnvFile env ≠ "" then
      runRsyncSafe dry w [Environment.syncEnvFile env] (rsyncEnvDest env) []
    else ([], true)
  if !r2.2 then (e5 ++ r2.1, Outcome.fatal FatalKind.rsyncFailed) else
  let e6 := e5 ++ r2.1
  let r3 := runRsyncSafe dry w [containerPathOf env] (rsyncQuadletDest env) []
  if !r3.2 then (e6 ++ r3.1, Outcome.fatal FatalKind.rsyncFailed) else
  let e7 := e6 ++ r3.1
  let a := runSSH dry w (activationScript env)
  let e8 := e7 ++ a.1
  if !a.2 then
    let rb := rollbackRun dry w env bp (dockerfileOf env)
    (e8 ++ rb.1,
      if rb.2 then Outcome.fatal FatalKind.deployFailedRolledBack
      else Outcome.fatal FatalKind.rollbackFailed)
  else
  if Quadlet.healthURL (Environment.quadlet env) = "" then (e8, Outcome.ok)
  else
    let h := runSSH dry w (healthScript (Quadlet.healthURL (Environment.quadlet env)))
    let e9 := e8 ++ h.1
    if h.2 then (e9, Outcome.ok)
    else
      let rb := rollbackRun dry w env bp (dockerfileOf env)
      (e9 ++ rb.1,
        if rb.2 then Outcome.fatal FatalKind.deployUnhealthy
        else Outcome.fatal FatalKind.rollbackFailed)

/-! ### Claim C1 -/

/-- A minimal release configuration for the counterexample runs. -/
def cfgC1 : Config := { appName := "app", binaryName := "b" }

/-- A minimal environment (no `.env` sync, no health URL) for the
counterexample runs. -/
def envC1 : Environment :=
  { host := "h", user := "u", port := 22, dir := "/d",
    quadlet := { serviceName := "s", image := "img", router := { host := "x" } } }

/-- A world in which exactly the Backing-Up ssh command fails and everything
else succeeds. -/
def wC1 : World :=
  { sshOk := fun c => if c = backupCmd (binPath cfgC1 envC1) then false else true }

/-- C1 counterexample: in a world where the Backing-Up command fails, the run
still issues the artifact sync, the quadlet sync and the activation script
after the backup command, and ends successfully — `doRun` (deploy.go line 86)
discards the backup step's result, so a failed backup is not terminal and
Mutating proceeds. -/
theorem C1_cex_backup_failure_not_terminal :
    World.sshOk wC1 (backupCmd (binPath cfgC1 envC1)) = false
    ∧ (doRun false wC1 cfgC1 envC1).1 =
        [Event.ssh preflightCmd, Event.fileWrite "build",
         Event.localExec (buildCmdOf cfgC1), Event.fileWrite (containerPathOf envC1),
         Event.ssh (mkdirCmd envC1), Event.ssh (backupCmd (binPath cfgC1 envC1)),
         Event.rsync (artifactsOf cfgC1) (rsyncMainDest envC1) ["--delete"],
         Event.rsync [containerPathOf envC1] (rsyncQuadletDest envC1) [],
         Event.ssh (activationScript envC1)]
    ∧ (doRun false wC1 cfgC1 envC1).2 = Outcome.ok :=
  ⟨rfl, rfl, rfl⟩

/-- Overriding a world so that the Backing-Up command reports failure. -/
def forceBackupFail (w : World) (bp : String) : World :=
  { w with sshOk := fun c => if c = backupCmd bp then false else World.sshOk w c }

theorem sshOk_force (w : World) (bp c : String) (h : ¬(c = backupCmd bp)) :
    World.sshOk (forceBackupFail w bp) c = World.sshOk w c := by
  simp [forceBackupFail, h]

theorem runSSH_force (dry : Bool) (w : World) (bp c : String) (h : ¬(c = backupCmd bp)) :
    runSSH dry (forceBackupFail w bp) c = runSSH dry w c := by
  simp [runSSH, sshOk_force w bp c h]

theorem runSSH_fst (dry : Bool) (w : World) (c : String) :
    (runSSH dry w c).1 = (if dry then [] else [Event.ssh c]) := by
  cases dry <;> rfl

theorem succeeds_force (w : World) (bp : String) (c : RbCmd) :
    RbCmd.succeeds (forceBackupFail w bp) c = RbCmd.succeeds w c := by
  cases c <;> rfl

theorem execChain_force (w : World) (bp : String) (l : List RbCmd) :
    execChain (forceBackupFail w bp) l = execChain w l := by
  induction l with
  | nil => rfl
  | cons c cs ih => simp [execChain, succeeds_force, ih]

theorem rollback_force (dry : Bool) (w : World) (bp : String) (env : Environment)
    (b d : String) :
    rollbackRun dry (forceBackupFail w bp) env b d = rollbackRun dry w env b d := by
  cases dry <;> simp [rollbackRun, runSSHStream, execChain_force]

theorem pre_ne_backup (bp : String) : ¬(preflightCmd = backupCmd bp) :=
  str_ne_of_take _ _ 1 (by
    simp only [backupCmd, String.data_append, List.append_assoc]
    rw [List.take_append_of_le_length (by decide)]
    decide)

theorem mkdir_ne_backup (env : Environment) (bp : String) :
    ¬(mkdirCmd env = backupCmd bp) :=
  str_ne_of_take _ _ 1 (by
    simp only [mkdirCmd, backupCmd, String.data_append, List.append_assoc]
    rw [List.take_append_of_le_length (by decide),
        List.take_append_of_le_length (by decide)]
    decide)

theorem act_ne_backup (env : Environment) (bp : String) :
    ¬(activationScript env = backupCmd bp) :=
  str_ne_of_take _ _ 1 (by
    simp only [activationScript, goJoin, backupCmd, String.data_append, List.append_assoc]
    rw [List.take_append_of_le_length (by decide),
        List.take_append_of_le_length (by decide)]
    decide)

theorem health_ne_backup (url : String) (bp : String) :
    ¬(healthScript url = backupCmd bp) :=
  str_ne_of_take _ _ 1 (by
    simp only [healthScript, backupCmd, String.data_append, List.append_assoc]
    rw [List.take_append_of_le_length (by decide),
        List.take_append_of_le_length (by decide)]
    decide)

/-- C1 (amended): the run never consults the Backing-Up step's result — the
entire run (its effect trace and its outcome) is unchanged when the backup
command is forced to fail, so a failed backup is not treated as terminal and
Mutating proceeds regardless.  (The backup command string itself additionally
ends in `|| true`, masking `cp` failures remotely.) -/
theorem C1_amended_backup_result_ignored (dry : Bool) (w : World) (cfg : Config)
    (env : Environment) :
    doRun dry (forceBackupFail w (binPath cfg env)) cfg env = doRun dry w cfg env := by
  simp only [doRun,
    runSSH_force dry w (binPath cfg env) preflightCmd (pre_ne_backup _),
    runSSH_force dry w (binPath cfg env) (mkdirCmd env) (mkdir_ne_backup env _),
    runSSH_force dry w (binPath cfg env) (activationScript env) (act_ne_backup env _),
    runSSH_force dry w (binPath cfg env)
      (healthScript (Quadlet.healthURL (Environment.quadlet env))) (health_ne_backup _ _),
    rollback_force, runSSH_fst]
  rfl

/-! ### Claim C5 -/

/-- C5: a release run whose Activating step fails — or whose Verifying
(health-check) step fails — issues, in order, the diagnostic journal capture,
the backup-restore command, the image rebuild and the service restart of the
rollback script, and terminates with a non-zero fatal outcome
("deployment failed but rolled back" / "unhealthy but rolled back"); if the
restore script itself fails, the run instead terminates with the distinct
fatal rollback-failed outcome. -/
theorem C5_rollback_sequence (w : World) (cfg : Config) (env : Environment)
    (hL : World.localRsyncOk w = true)
    (hP : World.sshOk w preflightCmd = true)
    (hB : World.buildOk w = true)
    (hR1 : World.rsyncOk w (artifactsOf cfg) (rsyncMainDest env) = true)
    (hEnvFile : Environment.syncEnvFile env = "")
    (hR3 : World.rsyncOk w [containerPathOf env] (rsyncQuadletDest env) = true) :
    (World.sshOk w (activationScript env) = false →
      (World.cdOk w = true →
       binPath cfg env ++ ".bak" ∈ World.remoteFiles w →
       World.rbBuildOk w = true → World.rbRestartOk w = true →
       doRun false w cfg env =
         ([Event.ssh preflightCmd, Event.fileWrite "build",
           Event.localExec (buildCmdOf cfg), Event.fileWrite (containerPathOf env),
           Event.ssh (mkdirCmd env), Event.ssh (backupCmd (binPath cfg env)),
           Event.rsync (artifactsOf cfg) (rsyncMainDest env) ["--delete"],
           Event.rsync [containerPathOf env] (rsyncQuadletDest env) [],
           Event.ssh (activationScript env),
           Event.sshStream (journalctlCmd (Quadlet.serviceName (Environment.quadlet env))),
           Event.ssh ("cd " ++ Environment.dir env),
           Event.ssh ("[ -f " ++ binPath cfg env ++ ".bak ] && mv " ++ binPath cfg env
             ++ ".bak " ++ binPath cfg env),
           Event.ssh ("podman build -f " ++ dockerfileOf env ++ " -t "
             ++ Quadlet.image (Environment.quadlet env) ++ " ."),
           Event.ssh ("systemctl --user restart "
             ++ Quadlet.serviceName (Environment.quadlet env) ++ ".service")],
          Outcome.fatal FatalKind.deployFailedRolledBack))
      ∧ ((execChain w (rbCmds env (binPath cfg env) (dockerfileOf env))).2 = false →
         (doRun false w cfg env).2 = Outcome.fatal FatalKind.rollbackFailed))
    ∧ (World.sshOk w (activationScript env) = true →
       Quadlet.healthURL (Environment.quadlet env) ≠ "" →
       World.sshOk w (healthScript (Quadlet.healthURL (Environment.quadlet env))) = false →
      (World.cdOk w = true →
       binPath cfg env ++ ".bak" ∈ World.remoteFiles w →
       World.rbBuildOk w = true → World.rbRestartOk w = true →
       doRun false w cfg env =
         ([Event.ssh preflightCmd, Event.fileWrite "build",
           Event.localExec (buildCmdOf cfg), Event.fileWrite (containerPathOf env),
           Event.ssh (mkdirCmd env), Event.ssh (backupCmd (binPath cfg env)),
           Event.rsync (artifactsOf cfg) (rsyncMainDest env) ["--delete"],
           Event.rsync [containerPathOf env] (rsyncQuadletDest env) [],
           Event.ssh (activationScript env),
           Event.ssh (healthScript (Quadlet.healthURL (Environment.quadlet env))),
           Event.sshStream (journalctlCmd (Quadlet.serviceName (Environment.quadlet env))),
           Event.ssh ("cd " ++ Environment.dir env),
           Event.ssh ("[ -f " ++ binPath cfg env ++ ".bak ] && mv " ++ binPath cfg env
             ++ ".bak " ++ binPath cfg env),
           Event.ssh ("podman build -f " ++ dockerfileOf env ++ " -t "
             ++ Quadlet.image (Environment.quadlet env) ++ " ."),
           Event.ssh ("systemctl --user restart "
             ++ Quadlet.serviceName (Environment.quadlet env) ++ ".service")],
          Outcome.fatal FatalKind.deployUnhealthy))
      ∧ ((execChain w (rbCmds env (binPath cfg env) (dockerfileOf env))).2 = false →
         (doRun false w cfg env).2 = Outcome.fatal FatalKind.rollbackFailed))
    ∧ Outcome.exitCode (Outcome.fatal FatalKind.deployFailedRolledBack) ≠ 0
    ∧ Outcome.exitCode (Outcome.fatal FatalKind.deployUnhealthy) ≠ 0
    ∧ Outcome.fatal FatalKind.rollbackFailed ≠ Outcome.fatal FatalKind.deployFailedRolledBack
    ∧ Outcome.fatal FatalKind.rollbackFailed ≠ Outcome.fatal FatalKind.deployUnhealthy := by
  refine ⟨fun hA => ⟨?_, ?_⟩, fun hA hURL hH => ⟨?_, ?_⟩,
    by decide, by decide, by decide, by decide⟩
  · intro hcd hbak hbuild hrestart
    simp [doRun, runSSH, runSSHStream, runRsyncSafe, rollbackRun, execChain,
      RbCmd.succeeds, rbCmds, RbCmd.render, hL, hP, hB, hR1, hR3, hA, hEnvFile,
      hcd, hbak, hbuild, hrestart]
  · intro hch
    simp [doRun, runSSH, runSSHStream, runRsyncSafe, rollbackRun,
      hL, hP, hB, hR1, hR3, hA, hEnvFile, hch]
  · intro hcd hbak hbuild hrestart
    simp [doRun, runSSH, runSSHStream, runRsyncSafe, rollbackRun, execChain,
      RbCmd.succeeds, rbCmds, RbCmd.render, hL, hP, hB, hR1, hR3, hA, hEnvFile,
      hURL, hH, hcd, hbak, hbuild, hrestart]
  · intro hch
    simp [doRun, runSSH, runSSHStream, runRsyncSafe, rollbackRun,
      hL, hP, hB, hR1, hR3, hA, hEnvFile, hURL, hH, hch]

/-- A world in which the activation script fails and the remote `.bak` backup
exists, so the rollback completes. -/
def wC5 : World :=
  { sshOk := fun c => if c = activationScript envC1 then false else true,
    remoteFiles := [binPath cfgC1 envC1 ++ ".bak"] }

set_option maxRecDepth 100000 in
theorem C5_rollback_sequence_witness :
    World.sshOk wC5 (activationScript envC1) = false
    ∧ (doRun false wC5 cfgC1 envC1).2 = Outcome.fatal FatalKind.deployFailedRolledBack :=
  ⟨by decide,
   by rw [((C5_rollback_sequence wC5 cfgC1 envC1 rfl (by decide) rfl rfl rfl
      rfl).1 (by decide)).1 rfl (by decide) rfl rfl]⟩

/-! ### Claim C10 -/

theorem restartStr_ne_pre (sn : String) :
    ¬("systemctl --user restart " ++ sn ++ ".service" = preflightCmd) :=
  str_ne_of_take _ _ 1 (by
    simp only [String.data_append, List.append_assoc]
    rw [List.take_append_of_le_length (by decide)]
    decide)

theorem restartStr_ne_mkdir (sn : String) (env : Environment) :
    ¬("systemctl --user restart " ++ sn ++ ".service" = mkdirCmd env) :=
  str_ne_of_take _ _ 1 (by
    simp only [mkdirCmd, String.data_append, List.append_assoc]
    rw [List.take_append_of_le_length (by decide),
        List.take_append_of_le_length (by decide)]
    decide)

theorem restartStr_ne_backup (sn bp : String) :
    ¬("systemctl --user restart " ++ sn ++ ".service" = backupCmd bp) :=
  str_ne_of_take _ _ 1 (by
    simp only [backupCmd, String.data_append, List.append_assoc]
    rw [List.take_append_of_le_length (by decide),
        List.take_append_of_le_length (by decide)]
    decide)

theorem restartStr_ne_act (sn : String) (env : Environment) :
    ¬("systemctl --user restart " ++ sn ++ ".service" = activationScript env) :=
  str_ne_of_take _ _ 1 (by
    simp only [activationScript, goJoin, String.data_append, List.append_assoc]
    rw [List.take_append_of_le_length (by decide),
        List.take_append_of_le_length (by decide)]
    decide)

theorem restartStr_ne_cd (sn d : String) :
    ¬("systemctl --user restart " ++ sn ++ ".service" = "cd " ++ d) :=
  str_ne_of_take _ _ 1 (by
    simp only [String.data_append, List.append_assoc]
    rw [List.take_append_of_le_length (by decide),
        List.take_append_of_le_length (by decide)]
    decide)

theorem restartStr_ne_restore (sn bp : String) :
    ¬("systemctl --user restart " ++ sn ++ ".service"
      = "[ -f " ++ bp ++ ".bak ] && mv " ++ bp ++ ".bak " ++ bp) :=
  str_ne_of_take _ _ 1 (by
    simp only [String.data_append, List.append_assoc]
    rw [List.take_append_of_le_length (by decide),
        List.take_append_of_le_length (by decide)]
    decide)

/-- C10: when no `.bak` backup exists on the remote (for example on the first
deployment of a service), the restore chain of `rollback` fails as a whole at
its `[ -f bin.bak ]` test, so the run never issues the service-restart
command and terminates through the fatal rollback-failed path instead of
completing a clean rollback. -/
theorem C10_rollback_without_backup (w : World) (cfg : Config) (env : Environment)
    (hbak : ¬(binPath cfg env ++ ".bak" ∈ World.remoteFiles w))
    (hL : World.localRsyncOk w = true)
    (hP : World.sshOk w preflightCmd = true)
    (hB : World.buildOk w = true)
    (hR1 : World.rsyncOk w (artifactsOf cfg) (rsyncMainDest env) = true)
    (hEnvFile : Environment.syncEnvFile env = "")
    (hR3 : World.rsyncOk w [containerPathOf env] (rsyncQuadletDest env) = true)
    (hA : World.sshOk w (activationScript env) = false) :
    (rollbackRun false w env (binPath cfg env) (dockerfileOf env)).2 = false
    ∧ (doRun false w cfg env).2 = Outcome.fatal FatalKind.rollbackFailed
    ∧ Event.ssh ("systemctl --user restart "
        ++ Quadlet.serviceName (Environment.quadlet env) ++ ".service")
        ∉ (doRun false w cfg env).1 := by
  refine ⟨?_, ?_, ?_⟩
  · by_cases hcd : World.cdOk w = true <;>
      simp [rollbackRun, runSSHStream, execChain, RbCmd.succeeds, rbCmds, hbak, hcd]
  · by_cases hcd : World.cdOk w = true <;>
      simp [doRun, runSSH, runSSHStream, runRsyncSafe, rollbackRun, execChain,
        RbCmd.succeeds, rbCmds, hL, hP, hB, hR1, hR3, hA, hEnvFile, hbak, hcd]
  · by_cases hcd : World.cdOk w = true <;>
      simp [doRun, runSSH, runSSHStream, runRsyncSafe, rollbackRun, execChain,
        RbCmd.succeeds, rbCmds, RbCmd.render, hL, hP, hB, hR1, hR3, hA, hEnvFile,
        hbak, hcd, restartStr_ne_pre, restartStr_ne_mkdir, restartStr_ne_backup,
        restartStr_ne_act, restartStr_ne_cd, restartStr_ne_restore]

/-- A world in which the activation script fails and no remote `.bak` exists. -/
def wC10 : World :=
  { sshOk := fun c => if c = activationScript envC1 then false else true }

set_option maxRecDepth 100000 in
theorem C10_rollback_without_backup_witness :
    ¬(binPath cfgC1 envC1 ++ ".bak" ∈ World.remoteFiles wC10)
    ∧ (doRun false wC10 cfgC1 envC1).2 = Outcome.fatal FatalKind.rollbackFailed :=
  ⟨by decide,
   (C10_rollback_without_backup wC10 cfgC1 envC1 (by decide) rfl (by decide) rfl
      rfl rfl rfl (by decide)).2.1⟩

/-! ### Database sync (db.go, `doDBPull` and `doDBPush`) -/

/-- Symbolic content of the local database file: the pre-existing content, the
empty file left by `os.Create`, or the streamed remote snapshot. -/
inductive DBContent where
  | original
  | truncated
  | snapshot
deriving DecidableEq

/-- The durable local state `doDBPull` manipulates: the destination file and
its single `.bak` backup slot (`none` = the file does not exist). -/
structure LocalDB where
  db : Option DBContent := none
  bak : Option DBContent := none
deriving DecidableEq

/-- Go `filepath.Dir` for the slash-separated paths used here ("data/app.db"
becomes "data"). -/
def dirOfPath (s : String) : String :=
  String.intercalate "/" ((goSplit s '/').dropLast)

/-- The remote snapshot script of `doDBPull` (db.go): back the database up
with `sqlite3 .backup` into a temp directory (transactionally consistent even
under WAL writes) and stream it to stdout. -/
def pullRemoteScript (remote : String) : String :=
  "\n\t\tset -e\n\t\tTEMP_DIR=$(mktemp -d)\n\t\ttrap \"rm -rf $TEMP_DIR\" EXIT\n\t\tif ! command -v sqlite3 &> /dev/null; then\n            echo \"sqlite3 not found on remote\" >&2\n            exit 1\n        fi\n\t\tsqlite3 '"
    ++ remote
    ++ "' \".backup '$TEMP_DIR/backup.db'\"\n\t\tcat \"$TEMP_DIR/backup.db\"\n\t"

/-- The transfer half of `doDBPull` (db.go): `os.MkdirAll` (dry-run gated),
`os.Create` on the destination (NOT dry-run gated — it truncates the file),
then the snapshot command run directly through `exec.Command("ssh", ...)`
(NOT dry-run gated); on a failed transfer the destination is removed. -/
def dbPullTransfer (dry : Bool) (w : World) (lp remote : String) (fs : LocalDB)
    (e0 : List Event) : List Event × Outcome × LocalDB :=
  let e1 := e0 ++ (if dry then [] else [Event.fileWrite (dirOfPath lp)])
  if World.localCreateOk w then
    let fs2 : LocalDB := { fs with db := some DBContent.truncated }
    let e2 := e1 ++ [Event.fileWrite lp]
    let e3 := e2 ++ [Event.ssh (pullRemoteScript remote)]
    if World.pullOk w then
      (e3, Outcome.ok, { fs2 with db := some DBContent.snapshot })
    else
      (e3 ++ [Event.fileRemove lp], Outcome.fatal FatalKind.pullFailed,
       { fs2 with db := none })
  else (e1, Outcome.fatal FatalKind.localCreateFailed, fs)

/-- Go `doDBPull` (db.go): require sqlite, confirm, back the existing local file
up to its `.bak` slot (`copyFile`, NOT dry-run gated), then transfer.
`filepath.Clean` is the identity on the already-clean relative paths used
here. -/
def doDBPull (dry : Bool) (w : World) (env : Environment) (fs : LocalDB) :
    List Event × Outcome × LocalDB :=
  if DatabaseConfig.driver (Environment.database env) ≠ "sqlite" then
    ([], Outcome.fatal FatalKind.dbNotSqlite, fs)
  else
    let lp := DatabaseConfig.source (Environment.database env)
    let remote := goTrimRight (Environment.dir env) '/' ++ "/"
      ++ DatabaseConfig.source (Environment.database env)
    match LocalDB.db fs with
    | some c =>
      if confirmRun dry w ("Local file " ++ lp ++ " exists. Backup and overwrite?") then
        let fs1 : LocalDB :=
          { fs with bak := if World.localCopyOk w then some c else LocalDB.bak fs }
        let e1 := [Event.fileWrite (lp ++ ".bak")]
        if World.localCopyOk w then dbPullTransfer dry w lp remote fs1 e1
        else (e1, Outcome.fatal FatalKind.localBackupFailed, fs1)
      else ([], Outcome.aborted, fs)
    | none =>
      if confirmRun dry w ("Download to " ++ lp ++ "?") then
        dbPullTransfer dry w lp remote fs []
      else ([], Outcome.aborted, fs)

/-- The remote active-service query of `doDBPush` (db.go); exit 0 (success)
means the service is running. -/
def isActiveCmd (sn : String) : String :=
  "systemctl --user is-active -q " ++ sn ++ ".service"

/-- The permission-reclaim command of `doDBPush` (db.go). -/
def reclaimPermCmd (remote : String) : String :=
  "podman unshare chown $(id -u):$(id -g) " ++ remote ++ " " ++ remote
    ++ "-wal " ++ remote ++ "-shm || true"

/-- The remote single-slot backup command of `doDBPush` (db.go). -/
def pushBackupCmd (remote : String) : String :=
  "cp " ++ remote ++ " " ++ remote ++ ".bak || true"

/-- The stale WAL/SHM side-file cleanup of `doDBPush` (db.go). -/
def rmSideFilesCmd (remote : String) : String :=
  "rm -f " ++ remote ++ "-wal " ++ remote ++ "-shm"

/-- The backup-restore command run when the upload fails (db.go). -/
def restoreBakCmd (remote : String) : String :=
  "mv " ++ remote ++ ".bak " ++ remote

/-- The permission-restore command of `doDBPush` (db.go). -/
def restorePermCmd (env : Environment) (remote : String) : String :=
  "podman unshare chown " ++ toString (Quadlet.containerUID (Environment.quadlet env))
    ++ ":" ++ toString (Quadlet.containerGID (Environment.quadlet env))
    ++ " " ++ remote ++ " " ++ remote ++ ".bak"

/-- The rsync destination of the database upload (db.go). -/
def pushDest (env : Environment) (remote : String) : String :=
  Environment.user env ++ "@" ++ Environment.host env ++ ":" ++ remote

/-- The directive `logFatal` message of the push precondition check (db.go):
it names the running service and tells the operator the exact stop command. -/
def pushPrecondMsg (sn host envName : String) : String :=
  "⛔ Service '" ++ sn ++ "' is RUNNING on " ++ host
    ++ ".\n   You must manually stop it before pushing a database to prevent corruption.\n   "
    ++ ("Run: deploy stop " ++ envName)

/-- Go `doDBPush` (db.go): the active-service precondition check (skipped in
dry-run — the source comments "In dry-run, we skip this check because runSSH
returns nil (success) which would trigger false positive"), confirmation,
permission reclaim, remote single-slot backup, side-file cleanup, upload with
restore-on-failure, and permission restore.  The service is left stopped. -/
def doDBPush (dry : Bool) (w : World) (env : Environment) (envName : String) :
    List Event × Outcome :=
  let remote := goTrimRight (Environment.dir env) '/' ++ "/"
    ++ DatabaseConfig.source (Environment.database env)
  let sn := Quadlet.serviceName (Environment.quadlet env)
  let chk : List Event × Bool :=
    if dry then ([], false)
    else ([Event.ssh (isActiveCmd sn)], World.sshOk w (isActiveCmd sn))
  if chk.2 then
    (chk.1, Outcome.fatal (FatalKind.pushPrecondition
      (pushPrecondMsg sn (Environment.host env) envName)))
  else
  if confirmRun dry w "Are you sure?" then
    let e1 := chk.1 ++ (if 0 < Quadlet.containerUID (Environment.quadlet env)
        then (runSSH dry w (reclaimPermCmd remote)).1 else [])
    let b := runSSH dry w (pushBackupCmd remote)
    let e2 := e1 ++ b.1
    if b.2 then
      let e3 := e2 ++ (runSSH dry w (rmSideFilesCmd remote)).1
      let u := runRsyncSafe dry w [DatabaseConfig.source (Environment.database env)]
        (pushDest env remote) []
      let e4 := e3 ++ u.1
      if u.2 then
        let e5 := e4 ++ (if 0 < Quadlet.containerUID (Environment.quadlet env)
            then (runSSH dry w (restorePermCmd env remote)).1 else [])
        (e5, Outcome.ok)
      else
        (e4 ++ (runSSH dry w (restoreBakCmd remote)).1,
         Outcome.fatal FatalKind.pushUploadFailed)
    else (e2, Outcome.fatal FatalKind.pushRemoteBackupFailed)
  else (chk.1, Outcome.aborted)

/-! ### Claims C3, C4, C8 -/

/-- An environment with a sqlite database, for the database-sync runs. -/
def envDB : Environment :=
  { host := "h", user := "u", dir := "/srv",
    quadlet := { serviceName := "s", image := "img" },
    database := { driver := "sqlite", source := "data/app.db" } }

/-- The all-default world: every command succeeds, every prompt is answered
yes; in particular `systemctl --user is-active` succeeds, i.e. the supervised
service is running. -/
def wAll : World := {}

/-- A local state whose database file already exists with its original
content. -/
def fsOrig : LocalDB := { db := some DBContent.original }

/-- C3: the code violates the claim (and the README's "Dry Run: Preview every
shell command before it executes"): a dry-run database pull still backs up
and truncates the local database file (`copyFile` and `os.Create` are not
dry-run gated) and still executes the remote snapshot command (issued through
a bare `exec.Command("ssh", ...)`), replacing the local content with the
streamed snapshot.  Only `os.MkdirAll` is gated. -/
theorem C3_bug_dry_run_pull_executes :
    (doDBPull true wAll envDB fsOrig).1 =
      [Event.fileWrite "data/app.db.bak", Event.fileWrite "data/app.db",
       Event.ssh (pullRemoteScript "/srv/data/app.db")]
    ∧ (doDBPull true wAll envDB fsOrig).2.1 = Outcome.ok
    ∧ LocalDB.db fsOrig = some DBContent.original
    ∧ LocalDB.db (doDBPull true wAll envDB fsOrig).2.2 = some DBContent.snapshot :=
  ⟨rfl, rfl, rfl, rfl⟩

/-- C4 counterexample: in dry-run mode the active-service precondition check
is skipped (db.go guards it with `if !dryRun`), so a push against a target
whose service is active completes with success instead of failing with the
Precondition error the claim requires. -/
theorem C4_cex_dry_run_skips_active_check :
    World.sshOk wAll (isActiveCmd (Quadlet.serviceName (Environment.quadlet envDB))) = true
    ∧ (doDBPush true wAll envDB "prod").2 = Outcome.ok
    ∧ (doDBPush true wAll envDB "prod").1 = [] :=
  ⟨rfl, rfl, rfl⟩

/-- C4 (amended): for every NON-dry-run database push against a target whose
supervised service reports active, the push fails with the Precondition error
that names the stop command, and the only remote interaction is the read-only
`is-active` query — zero remote writes. -/
theorem C4_amended_push_active_precondition (w : World) (env : Environment)
    (envName : String)
    (hactive : World.sshOk w
      (isActiveCmd (Quadlet.serviceName (Environment.quadlet env))) = true) :
    doDBPush false w env envName =
      ([Event.ssh (isActiveCmd (Quadlet.serviceName (Environment.quadlet env)))],
       Outcome.fatal (FatalKind.pushPrecondition
         (pushPrecondMsg (Quadlet.serviceName (Environment.quadlet env))
           (Environment.host env) envName)))
    ∧ (∃ p, pushPrecondMsg (Quadlet.serviceName (Environment.quadlet env))
         (Environment.host env) envName = p ++ ("Run: deploy stop " ++ envName)) := by
  refine ⟨?_, ⟨_, rfl⟩⟩
  simp [doDBPush, hactive]

theorem C4_amended_push_active_precondition_witness :
    World.sshOk wAll (isActiveCmd (Quadlet.serviceName (Environment.quadlet envDB))) = true
    ∧ (doDBPush false wAll envDB "prod").2 =
        Outcome.fatal (FatalKind.pushPrecondition (pushPrecondMsg "s" "h" "prod")) :=
  ⟨rfl, by rw [(C4_amended_push_active_precondition wAll envDB "prod" rfl).1]; rfl⟩

/-- A world in which the remote transfer of the pull fails. -/
def wPullFail : World := { pullOk := false }

/-- C8 counterexample: on a failed pull transfer the pre-existing local
database content IS replaced, contrary to the claim: `os.Create` truncates
the destination before the transfer begins, the snapshot is streamed directly
into it, and on failure `os.Remove` deletes the file — the original content
survives only in the `.bak` copy, not in place. -/
theorem C8_cex_failed_pull_replaces_local :
    LocalDB.db fsOrig = some DBContent.original
    ∧ (doDBPull false wPullFail envDB fsOrig).1 =
        [Event.fileWrite "data/app.db.bak", Event.fileWrite "data",
         Event.fileWrite "data/app.db",
         Event.ssh (pullRemoteScript "/srv/data/app.db"),
         Event.fileRemove "data/app.db"]
    ∧ (doDBPull false wPullFail envDB fsOrig).2.1 = Outcome.fatal FatalKind.pullFailed
    ∧ LocalDB.db (doDBPull false wPullFail envDB fsOrig).2.2 ≠ some DBContent.original :=
  ⟨rfl, rfl, rfl, by decide⟩

/-- C8 (amended): the pre-existing local file is backed up to its single
`.bak` slot before being overwritten; the snapshot is then streamed directly
into the destination file (truncating it immediately, not atomically swapped
in after completion), and on a failed transfer the destination file is
removed — the prior content survives only in the `.bak` backup. -/
theorem C8_amended_pull_backup_semantics (w : World) (env : Environment)
    (fs : LocalDB) (c : DBContent)
    (hdrv : DatabaseConfig.driver (Environment.database env) = "sqlite")
    (hdb : LocalDB.db fs = some c)
    (hconfirm : World.confirmAnswer w ("Local file "
      ++ DatabaseConfig.source (Environment.database env)
      ++ " exists. Backup and overwrite?") = true)
    (hcopy : World.localCopyOk w = true)
    (hcreate : World.localCreateOk w = true) :
    (World.pullOk w = false →
       (doDBPull false w env fs).2.1 = Outcome.fatal FatalKind.pullFailed
       ∧ LocalDB.bak (doDBPull false w env fs).2.2 = some c
       ∧ LocalDB.db (doDBPull false w env fs).2.2 = none)
    ∧ (World.pullOk w = true →
       (doDBPull false w env fs).2.1 = Outcome.ok
       ∧ LocalDB.bak (doDBPull false w env fs).2.2 = some c
       ∧ LocalDB.db (doDBPull false w env fs).2.2 = some DBContent.snapshot) := by
  constructor <;> intro hp <;>
    simp [doDBPull, dbPullTransfer, confirmRun, hdrv, hdb, hconfirm, hcopy, hcreate, hp]

theorem C8_amended_pull_backup_semantics_witness :
    DatabaseConfig.driver (Environment.database envDB) = "sqlite"
    ∧ LocalDB.db fsOrig = some DBContent.original
    ∧ World.pullOk wPullFail = false
    ∧ (LocalDB.bak (doDBPull false wPullFail envDB fsOrig).2.2 = some DBContent.original
       ∧ LocalDB.db (doDBPull false wPullFail envDB fsOrig).2.2 = none) :=
  ⟨rfl, rfl, rfl,
   ((C8_amended_pull_backup_semantics wPullFail envDB fsOrig DBContent.original
      rfl rfl rfl rfl rfl).1 rfl).2⟩
